import Mathlib

/-!
Verification of the Snake Score Service (src/backend/main.py).

The service keeps a single process-wide integer `high_score`, initialized
to 0, and exposes three HTTP handlers:

* GET  /health      -> health ()            returns a status body "ok"
* GET  /high-score  -> read_high_score ()   returns the stored value
* POST /high-score  -> update_high_score    conditional update

Each handler is embedded as a pure function from the store state (the
integer `high_score`) to a response together with the resulting state.
Python integers are unbounded, so the state is `Int`. A raised
`HTTPException` is embedded as the `Except.error` branch carrying the
status code and detail message.
-/

namespace SnakeScore

/-- Response body of both /high-score handlers, the JSON object with the
single field `highScore`. -/
structure HighScoreBody where
  highScore : Int
deriving Repr, DecidableEq

/-- Response body of the /health handler, the JSON object with the single
field `status`. -/
structure StatusBody where
  status : String
deriving Repr, DecidableEq

/-- An HTTPException raised by a handler, with its status code and detail
message. -/
structure HTTPError where
  status_code : Nat
  detail : String
deriving Repr, DecidableEq

/-- Request body of POST /high-score (pydantic model ScorePayload with one
integer field `score`). -/
structure ScorePayload where
  score : Int
deriving Repr, DecidableEq

/-- Initial value of the module-level variable `high_score` at process
start (main.py line 14: `high_score: int = 0`). -/
def init_high_score : Int := 0

/-- Handler of GET /health (main.py lines 33-37): returns the fixed body
and does not touch the store. -/
def health (high_score : Int) : StatusBody × Int :=
  ({ status := "ok" }, high_score)

/-- Handler of GET /high-score (main.py lines 40-44): returns the current
stored value and does not modify it. -/
def read_high_score (high_score : Int) : HighScoreBody × Int :=
  ({ highScore := high_score }, high_score)

/-- Handler of POST /high-score (main.py lines 47-58): rejects a negative
score with HTTP 400, otherwise replaces the stored value when the
candidate is strictly greater, and returns the resulting stored value. -/
def update_high_score (high_score : Int) (payload : ScorePayload) :
    Except HTTPError HighScoreBody × Int :=
  if payload.score < 0 then
    (Except.error { status_code := 400, detail := "Score must be 0 or higher." },
     high_score)
  else
    let high_score := if payload.score > high_score then payload.score else high_score
    (Except.ok { highScore := high_score }, high_score)

/-- Stored value after submitting a whole list of scores in order,
starting from the initial state. -/
def submit_all (scores : List Int) : Int :=
  scores.foldl (fun v s => (update_high_score v { score := s }).2) init_high_score

/-- States of the store reachable from process start by any sequence of
the three operations. -/
inductive Reachable : Int → Prop
  | init : Reachable init_high_score
  | health_step {v : Int} : Reachable v → Reachable (health v).2
  | read_step {v : Int} : Reachable v → Reachable (read_high_score v).2
  | submit_step {v : Int} (p : ScorePayload) :
      Reachable v → Reachable (update_high_score v p).2

/-- Shared evaluation lemma: on a non-negative candidate the submit
handler takes the success branch and both response and new state are the
maximum of the stored value and the candidate. -/
lemma update_high_score_nonneg (v s : Int) (h : 0 ≤ s) :
    update_high_score v { score := s } =
      (Except.ok { highScore := max v s }, max v s) := by
  simp only [update_high_score, if_neg (by omega : ¬ s < 0)]
  by_cases hgt : s > v
  · simp [if_pos hgt, max_eq_right (le_of_lt hgt)]
  · simp [if_neg hgt, max_eq_left (by omega : s ≤ v)]

/-- C1: for every stored value v and every candidate score s with s >= 0,
the submit operation sets the stored value to s if s > v and leaves it at
v otherwise, and in both cases returns the resulting stored value, which
equals max(v, s). -/
theorem submit_returns_max (v s : Int) (h : 0 ≤ s) :
    update_high_score v { score := s } =
      (Except.ok { highScore := max v s }, max v s) :=
  update_high_score_nonneg v s h

/-- Witness for C1: submitting 42 onto stored value 0 yields max 0 42 = 42
as both response and new state. -/
theorem submit_returns_max_witness :
    update_high_score 0 { score := 42 } =
      (Except.ok { highScore := max 0 42 }, max 0 42) :=
  submit_returns_max 0 42 (by decide)

/-- C2: the submit operation fails, with HTTP 400 and detail "Score must
be 0 or higher." and the stored value unchanged, exactly when the
candidate is negative; a non-negative candidate always gets a successful
response. -/
theorem submit_rejects_negative (v s : Int) :
    (s < 0 ↔
      update_high_score v { score := s } =
        (Except.error { status_code := 400, detail := "Score must be 0 or higher." },
         v)) ∧
    (0 ≤ s → ∃ b, (update_high_score v { score := s }).1 = Except.ok b) := by
  constructor
  · constructor
    · intro hneg
      simp [update_high_score, if_pos hneg]
    · intro heq
      by_contra hge
      have := update_high_score_nonneg v s (by omega)
      rw [this] at heq
      exact Except.noConfusion (congrArg Prod.fst heq)
  · intro hge
    exact ⟨{ highScore := max v s }, by rw [update_high_score_nonneg v s hge]⟩

/-- Witness for C2: at stored value 42, the candidate -5 is negative and
is rejected with the exact 400 error leaving the state at 42, while the
candidate 7 succeeds. -/
theorem submit_rejects_negative_witness :
    (update_high_score 42 { score := -5 } =
      (Except.error { status_code := 400, detail := "Score must be 0 or higher." },
       42)) ∧
    ∃ b, (update_high_score 42 { score := 7 }).1 = Except.ok b :=
  ⟨(submit_rejects_negative 42 (-5)).1.mp (by decide),
   (submit_rejects_negative 42 7).2 (by decide)⟩

/-- C3: at process start the stored high score is 0, so reading in the
initial state returns the body with highScore = 0 (and the state stays
0). -/
theorem read_initial_state :
    init_high_score = 0 ∧
      read_high_score init_high_score = ({ highScore := 0 }, 0) :=
  ⟨rfl, rfl⟩

/-- C4: the invariant 0 <= value holds in the initial state and is
preserved by every operation, so every reachable stored value is
non-negative. -/
theorem reachable_nonneg (v : Int) (h : Reachable v) : 0 ≤ v := by
  induction h with
  | init => simp [init_high_score]
  | health_step _ ih => simpa [health] using ih
  | read_step _ ih => simpa [read_high_score] using ih
  | submit_step p _ ih =>
      simp only [update_high_score]
      split
      · simpa using ih
      · simp only
        split <;> omega

/-- Witness for C4: the state reached from start by submitting 42 and
then reading is non-negative. -/
theorem reachable_nonneg_witness :
    0 ≤ (read_high_score (update_high_score init_high_score { score := 42 }).2).2 :=
  reachable_nonneg _ ((Reachable.init.submit_step { score := 42 }).read_step)

/-- C6: submitting the candidate equal to the current stored value (which
is non-negative by the invariant) is a successful no-op, and re-submitting
the same non-negative candidate a second time leaves the state reached
after the first submission unchanged and returns it. -/
theorem submit_idempotent (v s : Int) (hv : 0 ≤ v) (hs : 0 ≤ s) :
    update_high_score v { score := v } = (Except.ok { highScore := v }, v) ∧
    update_high_score (update_high_score v { score := s }).2 { score := s } =
      (Except.ok { highScore := (update_high_score v { score := s }).2 },
       (update_high_score v { score := s }).2) := by
  constructor
  · rw [update_high_score_nonneg v v hv]
    simp
  · rw [update_high_score_nonneg v s hs]
    rw [update_high_score_nonneg (max v s) s hs]
    simp [max_assoc]

/-- Witness for C6: re-submitting 42 at stored value 42 is a successful
no-op, and submitting 42 twice from stored value 0 leaves the state
reached after the first submission unchanged. -/
theorem submit_idempotent_witness :
    update_high_score 42 { score := 42 } = (Except.ok { highScore := 42 }, 42) ∧
    update_high_score (update_high_score 0 { score := 42 }).2 { score := 42 } =
      (Except.ok { highScore := (update_high_score 0 { score := 42 }).2 },
       (update_high_score 0 { score := 42 }).2) :=
  ⟨(submit_idempotent 42 42 (by decide) (by decide)).1,
   (submit_idempotent 0 42 (by decide) (by decide)).2⟩

/-- C7: for every stored value v, the read operation returns the body
with highScore = v, leaves the state unchanged, and has no failure
branch (its result is always this successful pair). -/
theorem read_pure (v : Int) :
    read_high_score v = ({ highScore := v }, v) :=
  rfl

/-- C8: for every stored value v, the health check returns exactly the
body with status "ok", independent of v, and leaves the state
unchanged. -/
theorem health_constant (v : Int) :
    health v = ({ status := "ok" }, v) :=
  rfl

/-- C10: the submit operation is deterministic: two runs from the same
stored value with the same candidate produce the same outcome (response
or error) and the same resulting stored value. -/
theorem submit_deterministic (v : Int) (p : ScorePayload)
    (r₁ r₂ : Except HTTPError HighScoreBody × Int)
    (h₁ : update_high_score v p = r₁) (h₂ : update_high_score v p = r₂) :
    r₁.1 = r₂.1 ∧ r₁.2 = r₂.2 := by
  subst h₁; subst h₂; exact ⟨rfl, rfl⟩

/-- Witness for C10: two runs at stored value 0 with candidate 42 agree
on outcome and resulting state. -/
theorem submit_deterministic_witness :
    (update_high_score 0 { score := 42 }).1 = (update_high_score 0 { score := 42 }).1 ∧
    (update_high_score 0 { score := 42 }).2 = (update_high_score 0 { score := 42 }).2 :=
  submit_deterministic 0 { score := 42 } _ _ rfl rfl

/-- Shared lemma: over a list of non-negative candidates the submit step
coincides with taking maxima, from any starting state. -/
lemma foldl_submit_eq_foldl_max (l : List Int) :
    ∀ a : Int, (∀ s ∈ l, 0 ≤ s) →
      l.foldl (fun v s => (update_high_score v { score := s }).2) a =
        l.foldl max a := by
  induction l with
  | nil => intro a _; rfl
  | cons x xs ih =>
      intro a h
      have hx : 0 ≤ x := h x (List.mem_cons_self x xs)
      simp only [List.foldl_cons]
      rw [congrArg Prod.snd (update_high_score_nonneg a x hx)]
      exact ih (max a x) fun s hs => h s (List.mem_cons_of_mem x hs)

/-- Shared fact: max on Int is right-commutative, so left folds of max are
invariant under permutation of the list. -/
instance : RightCommutative (max : Int → Int → Int) :=
  ⟨fun b a₁ a₂ => by rw [max_assoc, max_comm a₁, ← max_assoc]⟩

/-- C5: for every finite list of non-negative candidate scores, submitting
them in order from the initial state leaves the stored value equal to
max(0, s1, ..., sn), and any permutation of the list leaves the same
stored value, so the result is independent of the order of submission. -/
theorem submit_all_eq_list_max (l l' : List Int) (h : ∀ s ∈ l, 0 ≤ s)
    (hp : l.Perm l') :
    submit_all l = l.foldl max 0 ∧ submit_all l' = submit_all l := by
  have h' : ∀ s ∈ l', 0 ≤ s := fun s hs => h s (hp.mem_iff.mpr hs)
  have e1 : submit_all l = l.foldl max 0 :=
    foldl_submit_eq_foldl_max l init_high_score h
  have e2 : submit_all l' = l'.foldl max 0 :=
    foldl_submit_eq_foldl_max l' init_high_score h'
  exact ⟨e1, by rw [e2, e1, hp.foldl_eq 0]⟩

/-- Witness for C5: submitting the non-negative scores 10, 42, 7 from the
initial state yields 42, and the permuted order 42, 7, 10 yields the same
stored value. -/
theorem submit_all_eq_list_max_witness :
    submit_all [10, 42, 7] = [10, 42, 7].foldl max 0 ∧
    submit_all [42, 7, 10] = submit_all [10, 42, 7] :=
  submit_all_eq_list_max [10, 42, 7] [42, 7, 10] (by decide) (by decide)

end SnakeScore
